import Mathlib

/-!
Verification of the logging core of go-carbon (package logging and the
daemon entry point).  The definitions below are a shallow embedding of
src/logging/logger.go and of the signal handlers in the daemon main file.
External effects (os.OpenFile, fsnotify, logrus output, chmod, chown) are
represented by an explicit event trace and by boolean environment verdicts
that decide whether each fallible call succeeds.
-/

namespace GoCarbon

/-- Destination of the process-wide diagnostic output stream (the stream
logrus.SetOutput points at): either standard error or an open file handle,
identified by a numeric id. -/
inductive Out where
  | stderr : Out
  | fd (n : Nat) : Out
  deriving DecidableEq, Repr

/-- Error value returned by a failing external call. -/
structure GoErr where
  msg : String
  deriving DecidableEq, Repr

/-- Error produced by a failing os.OpenFile call. -/
def openErr (path : String) : GoErr := ⟨"open " ++ path ++ ": failed"⟩

/-- Error produced by a failing os.MkdirAll call. -/
def mkdirErr (dir : String) : GoErr := ⟨"mkdir " ++ dir ++ ": failed"⟩

/-- Error produced by a failing os.Chmod call. -/
def chmodErr (path : String) : GoErr := ⟨"chmod " ++ path ++ ": failed"⟩

/-- Error produced by a failing os.Chown call. -/
def chownErr (path : String) : GoErr := ⟨"chown " ++ path ++ ": failed"⟩

/-- Error produced by a failing strconv.ParseInt call. -/
def parseIntErr (s : String) : GoErr := ⟨"parsing " ++ s ++ ": not a number"⟩

/-- Go os.O_RDWR on linux. -/
def O_RDWR : Nat := 2

/-- Go os.O_CREATE on linux. -/
def O_CREATE : Nat := 64

/-- Go os.O_APPEND on linux. -/
def O_APPEND : Nat := 1024

/-- Flag argument of every os.OpenFile call in logger.go:
os.O_RDWR plus os.O_CREATE plus os.O_APPEND. -/
def goOpenFlags : Nat := O_RDWR ||| O_CREATE ||| O_APPEND

/-- howeyc/fsnotify FSN_CREATE. -/
def FSN_CREATE : Nat := 1

/-- howeyc/fsnotify FSN_DELETE. -/
def FSN_DELETE : Nat := 4

/-- howeyc/fsnotify FSN_RENAME. -/
def FSN_RENAME : Nat := 8

/-- Flag argument of the watcher.WatchFlags call in fsWatch. -/
def fsnFlags : Nat := FSN_CREATE ||| FSN_DELETE ||| FSN_RENAME

/-- Observable external events, in program order. -/
inductive Ev where
  | reopenCall : Ev
  | reopenRet (res : Option GoErr) : Ev
  | openFile (path : String) (flags perm : Nat) (res : Option Nat) : Ev
  | swapFd (oldFd newFd : Option Nat) : Ev
  | setOutput (o : Out) : Ev
  | closeFd (n : Nat) : Ev
  | closeWatchChan (ch : Nat) : Ev
  | newWatchChan (ch : Nat) : Ev
  | watchSubscribe (path : String) (flags : Nat) : Ev
  | logInfo (msg : String) : Ev
  | logWarn (msg : String) : Ev
  | logError (msg : String) : Ev
  | reloadConfig (ok : Bool) : Ev
  | mkdirAll (dir : String) (perm : Nat) : Ev
  | chmod (path : String) (perm : Nat) : Ev
  | chown (path : String) (uid gid : Int) : Ev
  deriving DecidableEq, Repr

/-- The fields of the FileLogger struct that the specified behaviour
depends on (logger.go lines 25-31).  File handles and watcher channels are
identified by numeric ids; the embedded logrus logger is represented by
the World state below. -/
structure FileLogger where
  filename : String
  fd : Option Nat
  watcherDone : Option Nat
  deriving DecidableEq, Repr

/-- NewFileLogger (logger.go lines 34-42): empty filename, no handle, no
watcher channel. -/
def NewFileLogger : FileLogger := ⟨"", none, none⟩

/-- Process-wide state outside the FileLogger struct: the logrus output
stream, fresh-id counters, the table recording at which path each handle
id was opened (every open in logger.go uses append mode), and the single
live filesystem watch subscription, if any. -/
structure World where
  out : Out
  nextFd : Nat
  nextChan : Nat
  fdTable : List (Nat × String)
  curSub : Option String
  deriving DecidableEq, Repr

/-- Shallow embedding of FileLogger.Reopen (logger.go lines 102-136).
The whole body runs under the exclusive guard, so sequentially it is one
atomic state transformation.  openOk is the environment verdict for the
os.OpenFile call.  Returns the Go error, the new struct state, the new
world, and the trace of external events in program order. -/
def Reopen (openOk : Bool) (l : FileLogger) (w : World) :
    Option GoErr × FileLogger × World × List Ev :=
  if l.filename ≠ "" then
    if openOk then
      let newFd := w.nextFd
      let oldFd := l.fd
      let l1 : FileLogger := { l with fd := some newFd }
      let w1 : World :=
        { w with
          nextFd := w.nextFd + 1
          fdTable := (newFd, l.filename) :: w.fdTable
          out := Out.fd newFd }
      let evs :=
        [Ev.reopenCall,
         Ev.openFile l.filename goOpenFlags 0o644 (some newFd),
         Ev.swapFd oldFd (some newFd),
         Ev.setOutput (Out.fd newFd)] ++
        (match oldFd with
         | some o => [Ev.closeFd o]
         | none => []) ++
        [Ev.reopenRet none]
      (none, l1, w1, evs)
    else
      (some (openErr l.filename), l, w,
       [Ev.reopenCall,
        Ev.openFile l.filename goOpenFlags 0o644 none,
        Ev.reopenRet (some (openErr l.filename))])
  else
    let oldFd := l.fd
    let l1 : FileLogger := { l with fd := none }
    let w1 : World := { w with out := Out.stderr }
    let evs :=
      [Ev.reopenCall,
       Ev.swapFd oldFd none,
       Ev.setOutput Out.stderr] ++
      (match oldFd with
       | some o => [Ev.closeFd o]
       | none => []) ++
      [Ev.reopenRet none]
    (none, l1, w1, evs)

/-- Shallow embedding of the subscription-establishing part of fsWatch
(logger.go lines 61-78): create the watcher (may fail, logged as a
warning), return early on the empty filename, otherwise subscribe to
create, delete and rename events on exactly the filename (a failure of
the subscription call is logged as a warning). -/
def fsWatch (watcherOk subOk : Bool) (filename : String) (w : World) :
    World × List Ev :=
  if watcherOk = false then
    (w, [Ev.logWarn "fsnotify.NewWatcher failed"])
  else if filename = "" then
    (w, [])
  else if subOk then
    ({ w with curSub := some filename }, [Ev.watchSubscribe filename fsnFlags])
  else
    (w, [Ev.logWarn ("fsnotify.Watcher.Watch failed: " ++ filename)])

/-- Shallow embedding of FileLogger.Open (logger.go lines 45-58): record
the new filename under the guard, run the initial Reopen, close the
previous watcher-done channel if any (which makes the old watch goroutine
exit and release its subscription), create a fresh channel, and start
fsWatch on the recorded filename.  Returns the error of the initial
Reopen. -/
def Open (name : String) (openOk watcherOk subOk : Bool)
    (l : FileLogger) (w : World) :
    Option GoErr × FileLogger × World × List Ev :=
  let l1 : FileLogger := { l with filename := name }
  let r := Reopen openOk l1 w
  let reopenErr := r.1
  let l2 := r.2.1
  let w2 := r.2.2.1
  let ev1 := r.2.2.2
  let tw :=
    match l2.watcherDone with
    | some ch => ({ w2 with curSub := none }, [Ev.closeWatchChan ch])
    | none => (w2, ([] : List Ev))
  let w3 := tw.1
  let ev2 := tw.2
  let ch := w3.nextChan
  let l3 : FileLogger := { l2 with watcherDone := some ch }
  let w4 : World := { w3 with nextChan := w3.nextChan + 1 }
  let fw := fsWatch watcherOk subOk l3.filename w4
  (reopenErr, l3, fw.1, ev1 ++ ev2 ++ [Ev.newWatchChan ch] ++ fw.2)

/-- Target of a log write: logrus writes every line to the currently
configured process-wide output stream. -/
def logWriteTarget (w : World) : Out := w.out

/-- Shallow embedding of one iteration of the fsWatch event goroutine
(logger.go lines 83-97) for a delivered filesystem event: call Reopen on
the owning logger (the returned error is discarded by the source), then
re-subscribe to the captured path, then log the informational line.  The
err tested on line 90 of the source is the fsnotify.NewWatcher error from
line 62, which is necessarily nil whenever this loop is running, so the
error branch on lines 90-92 never fires. -/
def handleWatchEvent (path : String) (subOk openOk : Bool)
    (l : FileLogger) (w : World) : FileLogger × World × List Ev :=
  let r := Reopen openOk l w
  let l1 := r.2.1
  let w1 := r.2.2.1
  let ev1 := r.2.2.2
  let sw :=
    if subOk then
      ({ w1 with curSub := some path }, [Ev.watchSubscribe path fsnFlags])
    else
      (w1, [Ev.logWarn ("fsnotify.Watcher.Watch failed: " ++ path)])
  (l1, sw.1,
   ev1 ++ sw.2 ++ [Ev.logInfo ("Reopen log " ++ l1.filename ++ " by fsnotify event")])

/-- Shallow embedding of the fsWatch event goroutine processing a finite
sequence of delivered events one at a time, in delivery order; each list
element is the environment verdict for that event Reopen os.OpenFile
call. -/
def watchLoop (path : String) (subOk : Bool) (evs : List Bool)
    (l : FileLogger) (w : World) : FileLogger × World × List Ev :=
  match evs with
  | [] => (l, w, [])
  | ok :: rest =>
    let h := handleWatchEvent path subOk ok l w
    let t := watchLoop path subOk rest h.1 h.2.1
    (t.1, t.2.1, h.2.2 ++ t.2.2)

/-- Shallow embedding of the SIGHUP handler registered in the daemon init
function (main file lines 40-58): reopen the standard logger, log the
informational line, and log an error line when the reopen failed. -/
def hupReopenHandler (openOk : Bool) (l : FileLogger) (w : World) :
    FileLogger × World × List Ev :=
  let r := Reopen openOk l w
  let errLine : List Ev :=
    match r.1 with
    | some e => [Ev.logError ("Reopen log " ++ r.2.1.filename ++ " failed: " ++ e.msg)]
    | none => []
  (r.2.1, r.2.2.1,
   r.2.2.2 ++ [Ev.logInfo ("HUP received, reopen log " ++ r.2.1.filename)] ++ errLine)

/-- Shallow embedding of the SIGHUP handler registered in the daemon main
function (main file lines 184-196): log the informational line, attempt
the configuration reload, and log its outcome.  The reload itself
(app.ReloadConfig) belongs to the managed application, an external
collaborator; only its success verdict matters here. -/
def hupReloadHandler (reloadOk : Bool) : List Ev :=
  [Ev.logInfo "HUP received. Reload config", Ev.reloadConfig reloadOk] ++
  (if reloadOk then [Ev.logInfo "Config successfully reloaded"]
   else [Ev.logError "Config reload failed"])

/-- Delivery of one SIGHUP: both registered handlers receive the signal
and run.  They are independent goroutines sharing no state (the reload
handler never touches the logger), so their sequential composition below
represents any interleaving of the two up to trace order. -/
def deliverHup (openOk reloadOk : Bool) (l : FileLogger) (w : World) :
    FileLogger × World × List Ev :=
  let r := hupReopenHandler openOk l w
  (r.1, r.2.1, r.2.2 ++ hupReloadHandler reloadOk)

/-- Go user.User restricted to the fields PrepareFile reads. -/
structure GoUser where
  uid : String
  gid : String
  deriving DecidableEq, Repr

/-- Environment verdicts for the external calls PrepareFile can make. -/
structure FSEnv where
  mkdirOk : Bool
  openRes : Option Nat
  chmodOk : Bool
  chownOk : Bool
  deriving DecidableEq, Repr

/-- Simplified model of Go filepath.Dir: the path up to the last slash
(without the path cleaning Go performs).  It is only used to name the
directory in the mkdir trace event; no theorem below depends on its
value. -/
def goDir (path : String) : String :=
  let parts := path.splitOn "/"
  if parts.length ≤ 1 then "." else String.intercalate "/" parts.dropLast

/-- Model of Go strconv.ParseInt with base 10, mapping a decimal string
with optional sign to an integer and anything else to a parse error. -/
def goParseInt (s : String) : Option Int := s.toInt?

/-- Shallow embedding of PrepareFile (logger.go lines 161-197): return
immediately on the empty filename; otherwise make the parent directory,
open-and-close the file in append mode with permission 0644, chmod it,
and, when an owner is given, parse its uid and gid and chown the file.
Each step returns its error on failure. -/
def PrepareFile (filename : String) (owner : Option GoUser) (env : FSEnv) :
    Option GoErr × List Ev :=
  if filename = "" then
    (none, [])
  else if env.mkdirOk = false then
    (some (mkdirErr (goDir filename)), [Ev.mkdirAll (goDir filename) 0o755])
  else
    let pre := [Ev.mkdirAll (goDir filename) 0o755]
    match env.openRes with
    | none =>
      (some (openErr filename),
       pre ++ [Ev.openFile filename goOpenFlags 0o644 none])
    | some n =>
      let pre := pre ++ [Ev.openFile filename goOpenFlags 0o644 (some n), Ev.closeFd n]
      if env.chmodOk = false then
        (some (chmodErr filename), pre ++ [Ev.chmod filename 0o644])
      else
        let pre := pre ++ [Ev.chmod filename 0o644]
        match owner with
        | none => (none, pre)
        | some u =>
          match goParseInt u.uid with
          | none => (some (parseIntErr u.uid), pre)
          | some uid =>
            match goParseInt u.gid with
            | none => (some (parseIntErr u.gid), pre)
            | some gid =>
              if env.chownOk = false then
                (some (chownErr filename), pre ++ [Ev.chown filename uid gid])
              else
                (none, pre ++ [Ev.chown filename uid gid])

/-- The filename-handle correspondence of the specification: the handle
is either none (exactly when the filename is empty) or a handle that was
opened, in append mode, at the current filename. -/
def consistentB (l : FileLogger) (w : World) : Bool :=
  match l.fd with
  | none => l.filename = ""
  | some n => w.fdTable.lookup n = some l.filename

/-- States of the FileLogger and the world that another caller (a log
write or a Filename call) can observe while Open runs: the guard is free
after the first critical section records the new filename (logger.go
line 48) and again after the Reopen critical section returns (line 50).
The remaining statements of Open touch neither the filename, the handle,
nor the fd table. -/
def openObservable (name : String) (openOk : Bool)
    (l : FileLogger) (w : World) : List (FileLogger × World) :=
  let l1 : FileLogger := { l with filename := name }
  let r := Reopen openOk l1 w
  [(l1, w), (r.2.1, r.2.2.1)]

/-- Claim C2 as stated: assuming the correspondence holds beforehand,
every observable point, including the points inside an Open call, shows a
handle that corresponds to the current filename. -/
def C2Statement : Prop :=
  ∀ (name : String) (openOk : Bool) (l : FileLogger) (w : World),
    consistentB l w = true →
    ∀ p ∈ openObservable name openOk l w, consistentB p.1 p.2 = true

/-- Claim C4 as stated: for every filename argument, Open returns exactly
the error of the initial Reopen, records the filename, and (with the
watch machinery succeeding) leaves a live subscription rooted at that
filename. -/
def C4Statement : Prop :=
  ∀ (name : String) (openOk : Bool) (l : FileLogger) (w : World),
    (Open name openOk true true l w).1 =
      (Reopen openOk { l with filename := name } w).1 ∧
    (Open name openOk true true l w).2.1.filename = name ∧
    (Open name openOk true true l w).2.2.1.curSub = some name

/-- Abstraction of the trace events that mark the synchronisation points
claim C6 speaks about: entry into Reopen, return from Reopen, and the
re-subscription call. -/
inductive SyncEv where
  | call : SyncEv
  | ret : SyncEv
  | sub : SyncEv
  deriving DecidableEq, Repr

/-- Projection of a trace event to its synchronisation point, if it is
one. -/
def syncOf : Ev → Option SyncEv
  | Ev.reopenCall => some SyncEv.call
  | Ev.reopenRet _ => some SyncEv.ret
  | Ev.watchSubscribe _ _ => some SyncEv.sub
  | _ => none

/-- Recogniser for error-level log lines in a trace. -/
def isLogError : Ev → Bool
  | Ev.logError _ => true
  | _ => false

/-!
Interleaving model for the concurrency claim about Reopen and log
writes.  Reopen (logger.go lines 102-136) runs its whole body under the
exclusive FileLogger guard, so concurrent Reopen calls are serialised and
are modelled by one rotator thread executing a list of Reopen calls.  Log
writes do not take that guard: they go through the process-wide logrus
output.  The write path is modelled from the spec: all writers funnel
through the single current output stream, a write acquires the
process-wide output mutex, reads the current output, writes to it and
releases (the logrus library holding that mutex is not part of the
sources); logrus.SetOutput acquires the same mutex to replace the
stream.  The only shared data are the output stream, that mutex, and the
set of closed handles.
-/

/-- Shared state of the interleaving model. -/
structure CSt where
  filename : String
  fdL : Option Nat
  out : Out
  gLock : Bool
  closed : List Nat
  nextFd : Nat
  bad : Bool
  deriving DecidableEq, Repr

/-- Local control state of a writer thread. -/
inductive WStage where
  | ready : WStage
  | locked : WStage
  | got (t : Out) : WStage
  deriving DecidableEq, Repr

/-- A writer thread: a number of log writes still to perform and its
control state. -/
structure Writer where
  pending : Nat
  st : WStage
  deriving DecidableEq, Repr

/-- Local control state of the rotator thread inside one Reopen call,
after the open-and-swap step: the freshly installed handle and the
previous handle it will close at the end. -/
inductive RStage where
  | ready : RStage
  | swapped (newFd oldFd : Option Nat) : RStage
  | gLocked (newFd oldFd : Option Nat) : RStage
  | outSet (newFd oldFd : Option Nat) : RStage
  | closing (newFd oldFd : Option Nat) : RStage
  deriving DecidableEq, Repr

/-- The rotator thread: the environment verdicts of its remaining Reopen
calls and its control state. -/
structure Rotator where
  ops : List Bool
  st : RStage
  deriving DecidableEq, Repr

/-- A configuration of the interleaving model. -/
structure Config where
  s : CSt
  wr : Writer
  ro : Rotator
  deriving DecidableEq, Repr

/-- Output stream corresponding to a handle field, as computed on
logger.go lines 122-128: the handle when there is one, standard error
otherwise. -/
def render : Option Nat → Out
  | some n => Out.fd n
  | none => Out.stderr

/-- Modelled from the spec: the log-write path lives in the logrus
dependency, which is not part of the sources; per the spec all writers
funnel through the single current output stream, so one writer step
acquires the process-wide output mutex, reads the current output stream,
writes to it (recording a violation when the target is a closed handle)
and releases. -/
def wstep (c : Config) : Config :=
  match c.wr.st with
  | WStage.ready =>
    if c.wr.pending = 0 then c
    else if c.s.gLock then c
    else
      { c with
        s := { c.s with gLock := true }
        wr := { c.wr with st := WStage.locked } }
  | WStage.locked =>
    { c with wr := { c.wr with st := WStage.got c.s.out } }
  | WStage.got t =>
    let isBad :=
      match t with
      | Out.fd n => decide (n ∈ c.s.closed)
      | Out.stderr => false
    { c with
      s := { c.s with gLock := false, bad := c.s.bad || isBad }
      wr := { pending := c.wr.pending - 1, st := WStage.ready } }

/-- One step of the rotator thread, following the statement order of
Reopen (logger.go lines 102-136): take the guard and open and swap (or
return the open error, or take the none branch on the empty filename);
acquire the output mutex inside SetOutput; install the new output
stream; release the output mutex; close the previous handle and release
the guard. -/
def rstep (c : Config) : Config :=
  match c.ro.st with
  | RStage.ready =>
    match c.ro.ops with
    | [] => c
    | ok :: rest =>
      if c.s.filename ≠ "" then
        if ok then
          { c with
            s := { c.s with fdL := some c.s.nextFd, nextFd := c.s.nextFd + 1 }
            ro := { ops := rest, st := RStage.swapped (some c.s.nextFd) c.s.fdL } }
        else
          { c with ro := { ops := rest, st := RStage.ready } }
      else
        { c with
          s := { c.s with fdL := none }
          ro := { ops := rest, st := RStage.swapped none c.s.fdL } }
  | RStage.swapped nf of =>
    if c.s.gLock then c
    else
      { c with
        s := { c.s with gLock := true }
        ro := { c.ro with st := RStage.gLocked nf of } }
  | RStage.gLocked nf of =>
    { c with
      s := { c.s with out := render nf }
      ro := { c.ro with st := RStage.outSet nf of } }
  | RStage.outSet nf of =>
    { c with
      s := { c.s with gLock := false }
      ro := { c.ro with st := RStage.closing nf of } }
  | RStage.closing _ of =>
    match of with
    | some o =>
      { c with
        s := { c.s with closed := o :: c.s.closed }
        ro := { c.ro with st := RStage.ready } }
    | none =>
      { c with ro := { c.ro with st := RStage.ready } }

/-- One scheduled step: true runs the writer, false the rotator. -/
def step (c : Config) (who : Bool) : Config :=
  if who then wstep c else rstep c

/-- Run of the interleaving model under a schedule. -/
def run (c : Config) : List Bool → Config
  | [] => c
  | b :: rest => run (step c b) rest

/-- Whether a writer control state holds the output mutex. -/
def wHolds : WStage → Bool
  | WStage.ready => false
  | WStage.locked => true
  | WStage.got _ => true

/-- Whether a rotator control state holds the output mutex. -/
def rHolds : RStage → Bool
  | RStage.gLocked _ _ => true
  | RStage.outSet _ _ => true
  | _ => false

/-- Constraint a handle field must satisfy: below the fresh-id counter. -/
def fdOkB (nextFd : Nat) : Option Nat → Bool
  | some n => decide (n < nextFd)
  | none => true

/-- Constraint on the current output stream: an open (never closed)
handle below the fresh-id counter, or standard error. -/
def outOkB (out : Out) (closed : List Nat) (nextFd : Nat) : Bool :=
  match out with
  | Out.fd n => decide (n ∉ closed) && decide (n < nextFd)
  | Out.stderr => true

/-- Constraint on a freshly installed handle mid-Reopen: open, and
distinct from the previous handle it replaces. -/
def newOkB (nf of : Option Nat) (closed : List Nat) : Bool :=
  match nf with
  | some m =>
    decide (m ∉ closed) &&
    (match of with
     | some o => decide (o ≠ m)
     | none => true)
  | none => true

/-- Invariant on the shared state: no violation recorded, closed handles
are below the fresh-id counter, so are the logger handle and the output
stream, and the output stream is never a closed handle. -/
def sInvB (s : CSt) : Bool :=
  !s.bad &&
  decide (∀ n ∈ s.closed, n < s.nextFd) &&
  fdOkB s.nextFd s.fdL &&
  outOkB s.out s.closed s.nextFd

/-- Invariant on the rotator mid-call control state: the logger handle
field equals the freshly installed handle, the previous handle is below
the fresh-id counter, the new handle is open and distinct from the
previous one, and once the output stream has been installed it renders
the new handle. -/
def roInvB (s : CSt) : RStage → Bool
  | RStage.ready => true
  | RStage.swapped nf of =>
    decide (s.fdL = nf) && fdOkB s.nextFd of && newOkB nf of s.closed
  | RStage.gLocked nf of =>
    decide (s.fdL = nf) && fdOkB s.nextFd of && newOkB nf of s.closed
  | RStage.outSet nf of =>
    decide (s.fdL = nf) && fdOkB s.nextFd of &&
    decide (s.out = render nf) && newOkB nf of s.closed
  | RStage.closing nf of =>
    decide (s.fdL = nf) && fdOkB s.nextFd of &&
    decide (s.out = render nf) && newOkB nf of s.closed

/-- Constraint on the writer control state: a target read under the
output mutex is still the current output stream. -/
def wrOkB (wst : WStage) (out : Out) : Bool :=
  match wst with
  | WStage.got t => decide (t = out)
  | _ => true

/-- Full invariant of the interleaving model: the shared-state
invariant, the output mutex held exactly by the thread whose control
state says so and by at most one thread, the writer constraint, and the
rotator constraint. -/
def invB (c : Config) : Bool :=
  sInvB c.s &&
  (c.s.gLock == (wHolds c.wr.st || rHolds c.ro.st)) &&
  !(wHolds c.wr.st && rHolds c.ro.st) &&
  wrOkB c.wr.st c.s.out &&
  roInvB c.s c.ro.st

/-- Concrete example logger pointing at an old path with handle 0. -/
def exLogger : FileLogger := ⟨"/var/log/old.log", some 0, none⟩

/-- Concrete example logger whose watcher-done channel is live. -/
def exLoggerW : FileLogger := ⟨"/var/log/old.log", some 0, some 7⟩

/-- Concrete example world in which handle 0 was opened at the old
path. -/
def exWorld : World := ⟨Out.fd 0, 1, 8, [(0, "/var/log/old.log")], none⟩

/-- Concrete example world with a live subscription on the old path. -/
def exWorldS : World := ⟨Out.fd 0, 1, 8, [(0, "/var/log/old.log")], some "/var/log/old.log"⟩

/-- Concrete example configuration of the interleaving model: one writer
with two writes, one rotator with two Reopen calls, handle 0 open and
current. -/
def exConfig : Config :=
  ⟨⟨"/var/log/old.log", some 0, Out.fd 0, false, [], 1, false⟩,
   ⟨2, WStage.ready⟩, ⟨[true, true], RStage.ready⟩⟩

/-- Unfolding equation: a writer with nothing left to do does not move. -/
theorem wstep_done (s : CSt) (wst : WStage) (ro : Rotator)
    (hw : wst = WStage.ready) :
    wstep ⟨s, ⟨0, wst⟩, ro⟩ = ⟨s, ⟨0, wst⟩, ro⟩ := by
  subst hw
  simp [wstep]

/-- Unfolding equation: a ready writer blocks while the mutex is held. -/
theorem wstep_blocked (s : CSt) (pending : Nat) (ro : Rotator)
    (hgl : s.gLock = true) :
    wstep ⟨s, ⟨pending, WStage.ready⟩, ro⟩ = ⟨s, ⟨pending, WStage.ready⟩, ro⟩ := by
  simp [wstep, hgl]

/-- Unfolding equation: a ready writer acquires the free mutex. -/
theorem wstep_acquire (s : CSt) (pending : Nat) (ro : Rotator)
    (hp : ¬pending = 0) (hgl : s.gLock = false) :
    wstep ⟨s, ⟨pending, WStage.ready⟩, ro⟩ =
      ⟨{ s with gLock := true }, ⟨pending, WStage.locked⟩, ro⟩ := by
  simp [wstep, hp, hgl]

/-- Unfolding equation: a writer holding the mutex reads the current
output stream. -/
theorem wstep_read (s : CSt) (pending : Nat) (ro : Rotator) :
    wstep ⟨s, ⟨pending, WStage.locked⟩, ro⟩ =
      ⟨s, ⟨pending, WStage.got s.out⟩, ro⟩ := rfl

/-- Unfolding equation: a writer writes to its target and releases. -/
theorem wstep_write (s : CSt) (pending : Nat) (ro : Rotator) (t : Out) :
    wstep ⟨s, ⟨pending, WStage.got t⟩, ro⟩ =
      ⟨{ s with
          gLock := false
          bad := s.bad || (match t with
            | Out.fd n => decide (n ∈ s.closed)
            | Out.stderr => false) },
        ⟨pending - 1, WStage.ready⟩, ro⟩ := rfl

/-- Unfolding equation: an idle rotator with no calls left does not
move. -/
theorem rstep_idle (s : CSt) (wr : Writer) :
    rstep ⟨s, wr, ⟨[], RStage.ready⟩⟩ = ⟨s, wr, ⟨[], RStage.ready⟩⟩ := rfl

/-- Unfolding equation: starting a Reopen call on a non-empty filename
with a succeeding open allocates a fresh handle and swaps it in. -/
theorem rstep_start_ok (s : CSt) (wr : Writer) (rest : List Bool)
    (hfn : ¬s.filename = "") :
    rstep ⟨s, wr, ⟨true :: rest, RStage.ready⟩⟩ =
      ⟨{ s with fdL := some s.nextFd, nextFd := s.nextFd + 1 }, wr,
        ⟨rest, RStage.swapped (some s.nextFd) s.fdL⟩⟩ := by
  simp [rstep, hfn]

/-- Unfolding equation: starting a Reopen call on a non-empty filename
with a failing open returns the error at once, changing nothing. -/
theorem rstep_start_fail (s : CSt) (wr : Writer) (rest : List Bool)
    (hfn : ¬s.filename = "") :
    rstep ⟨s, wr, ⟨false :: rest, RStage.ready⟩⟩ =
      ⟨s, wr, ⟨rest, RStage.ready⟩⟩ := by
  simp [rstep, hfn]

/-- Unfolding equation: starting a Reopen call on the empty filename
swaps in the none handle. -/
theorem rstep_start_empty (s : CSt) (wr : Writer) (ok : Bool) (rest : List Bool)
    (hfn : s.filename = "") :
    rstep ⟨s, wr, ⟨ok :: rest, RStage.ready⟩⟩ =
      ⟨{ s with fdL := none }, wr, ⟨rest, RStage.swapped none s.fdL⟩⟩ := by
  simp [rstep, hfn]

/-- Unfolding equation: the rotator blocks on the held output mutex. -/
theorem rstep_blocked (s : CSt) (wr : Writer) (ops : List Bool)
    (nf of : Option Nat) (hgl : s.gLock = true) :
    rstep ⟨s, wr, ⟨ops, RStage.swapped nf of⟩⟩ =
      ⟨s, wr, ⟨ops, RStage.swapped nf of⟩⟩ := by
  simp [rstep, hgl]

/-- Unfolding equation: the rotator acquires the free output mutex
inside SetOutput. -/
theorem rstep_acquire (s : CSt) (wr : Writer) (ops : List Bool)
    (nf of : Option Nat) (hgl : s.gLock = false) :
    rstep ⟨s, wr, ⟨ops, RStage.swapped nf of⟩⟩ =
      ⟨{ s with gLock := true }, wr, ⟨ops, RStage.gLocked nf of⟩⟩ := by
  simp [rstep, hgl]

/-- Unfolding equation: the rotator installs the new output stream. -/
theorem rstep_setout (s : CSt) (wr : Writer) (ops : List Bool)
    (nf of : Option Nat) :
    rstep ⟨s, wr, ⟨ops, RStage.gLocked nf of⟩⟩ =
      ⟨{ s with out := render nf }, wr, ⟨ops, RStage.outSet nf of⟩⟩ := rfl

/-- Unfolding equation: the rotator releases the output mutex. -/
theorem rstep_release (s : CSt) (wr : Writer) (ops : List Bool)
    (nf of : Option Nat) :
    rstep ⟨s, wr, ⟨ops, RStage.outSet nf of⟩⟩ =
      ⟨{ s with gLock := false }, wr, ⟨ops, RStage.closing nf of⟩⟩ := rfl

/-- Unfolding equation: the rotator closes the previous handle (when
there was one) and finishes the call. -/
theorem rstep_close (s : CSt) (wr : Writer) (ops : List Bool)
    (nf : Option Nat) (o : Nat) :
    rstep ⟨s, wr, ⟨ops, RStage.closing nf (some o)⟩⟩ =
      ⟨{ s with closed := o :: s.closed }, wr, ⟨ops, RStage.ready⟩⟩ := rfl

/-- Unfolding equation: the rotator finishes a call that had no previous
handle to close. -/
theorem rstep_close_none (s : CSt) (wr : Writer) (ops : List Bool)
    (nf : Option Nat) :
    rstep ⟨s, wr, ⟨ops, RStage.closing nf none⟩⟩ =
      ⟨s, wr, ⟨ops, RStage.ready⟩⟩ := rfl

/-- Preservation of the invariant by one writer step. -/
theorem invB_wstep (c : Config) (h : invB c = true) : invB (wstep c) = true := by
  obtain ⟨s, ⟨pending, wst⟩, ⟨ops, rst⟩⟩ := c
  have hparts := h
  simp only [invB, Bool.and_eq_true, beq_iff_eq] at hparts
  obtain ⟨⟨⟨⟨hs, hg⟩, hmx⟩, hwr⟩, hro⟩ := hparts
  cases wst with
  | ready =>
    by_cases hp : pending = 0
    · subst hp
      rw [wstep_done s WStage.ready ⟨ops, rst⟩ rfl]
      exact h
    · by_cases hgl : s.gLock = true
      · rw [wstep_blocked s pending ⟨ops, rst⟩ hgl]
        exact h
      · have hgl2 : s.gLock = false := by simpa using hgl
        have hrh : rHolds rst = false := by
          rw [hgl2] at hg
          simpa [wHolds] using hg.symm
        rw [wstep_acquire s pending ⟨ops, rst⟩ hp hgl2]
        simp only [invB, Bool.and_eq_true, beq_iff_eq]
        exact ⟨⟨⟨⟨hs, by simp [wHolds, hrh]⟩, by simp [wHolds, hrh]⟩,
          by simp [wrOkB]⟩, hro⟩
  | locked =>
    rw [wstep_read s pending ⟨ops, rst⟩]
    simp only [invB, Bool.and_eq_true, beq_iff_eq]
    exact ⟨⟨⟨⟨hs, by simpa [wHolds] using hg⟩, by simpa [wHolds] using hmx⟩,
      by simp [wrOkB]⟩, hro⟩
  | got t =>
    have ht : t = s.out := by simpa [wrOkB] using hwr
    have hrh : rHolds rst = false := by simpa [wHolds] using hmx
    have hsplit := hs
    simp only [sInvB, Bool.and_eq_true] at hsplit
    obtain ⟨⟨⟨hbad, hcl⟩, hfdl⟩, hout⟩ := hsplit
    have hbad2 : s.bad = false := by simpa using hbad
    rw [wstep_write s pending ⟨ops, rst⟩ t]
    simp only [invB, Bool.and_eq_true, beq_iff_eq]
    refine ⟨⟨⟨⟨?_, ?_⟩, ?_⟩, ?_⟩, ?_⟩
    · simp only [sInvB, Bool.and_eq_true]
      refine ⟨⟨⟨?_, hcl⟩, hfdl⟩, hout⟩
      subst ht
      cases hso : s.out with
      | stderr => simp [hbad2]
      | fd n =>
        rw [hso] at hout
        simp only [outOkB, Bool.and_eq_true, decide_eq_true_eq] at hout
        simp [hbad2, hout.1]
    · simp [wHolds, hrh]
    · simp [wHolds]
    · rfl
    · exact hro

/-- Preservation of the invariant by one rotator step. -/
theorem invB_rstep (c : Config) (h : invB c = true) : invB (rstep c) = true := by
  obtain ⟨s, ⟨pending, wst⟩, ⟨ops, rst⟩⟩ := c
  have hparts := h
  simp only [invB, Bool.and_eq_true, beq_iff_eq] at hparts
  obtain ⟨⟨⟨⟨hs, hg⟩, hmx⟩, hwr⟩, hro⟩ := hparts
  have hsplit := hs
  simp only [sInvB, Bool.and_eq_true] at hsplit
  obtain ⟨⟨⟨hbad, hcl⟩, hfdl⟩, hout⟩ := hsplit
  have hclp : ∀ n ∈ s.closed, n < s.nextFd := by simpa using hcl
  cases rst with
  | ready =>
    cases ops with
    | nil =>
      rw [rstep_idle]
      exact h
    | cons ok rest =>
      by_cases hfn : s.filename = ""
      · rw [rstep_start_empty s ⟨pending, wst⟩ ok rest hfn]
        simp only [invB, Bool.and_eq_true, beq_iff_eq]
        refine ⟨⟨⟨⟨?_, ?_⟩, ?_⟩, ?_⟩, ?_⟩
        · simp only [sInvB, Bool.and_eq_true]
          exact ⟨⟨⟨hbad, hcl⟩, by simp [fdOkB]⟩, hout⟩
        · simpa [rHolds] using hg
        · simpa [rHolds] using hmx
        · exact hwr
        · simp only [roInvB, Bool.and_eq_true]
          exact ⟨⟨by simp, hfdl⟩, by simp [newOkB]⟩
      · cases ok with
        | false =>
          rw [rstep_start_fail s ⟨pending, wst⟩ rest hfn]
          simp only [invB, Bool.and_eq_true, beq_iff_eq]
          exact ⟨⟨⟨⟨hs, by simpa [rHolds] using hg⟩, by simpa [rHolds] using hmx⟩,
            hwr⟩, by simp [roInvB]⟩
        | true =>
          rw [rstep_start_ok s ⟨pending, wst⟩ rest hfn]
          simp only [invB, Bool.and_eq_true, beq_iff_eq]
          refine ⟨⟨⟨⟨?_, ?_⟩, ?_⟩, ?_⟩, ?_⟩
          · simp only [sInvB, Bool.and_eq_true]
            refine ⟨⟨⟨hbad, ?_⟩, by simp [fdOkB]⟩, ?_⟩
            · simp only [decide_eq_true_eq]
              exact fun n hn => Nat.lt_succ_of_lt (hclp n hn)
            · cases hso : s.out with
              | stderr => rfl
              | fd n =>
                rw [hso] at hout
                simp only [outOkB, Bool.and_eq_true, decide_eq_true_eq] at hout ⊢
                exact ⟨hout.1, Nat.lt_succ_of_lt hout.2⟩
          · simpa [rHolds] using hg
          · simpa [rHolds] using hmx
          · exact hwr
          · simp only [roInvB, Bool.and_eq_true]
            refine ⟨⟨by simp, ?_⟩, ?_⟩
            · cases hfo : s.fdL with
              | none => rfl
              | some o =>
                rw [hfo] at hfdl
                simp only [fdOkB, decide_eq_true_eq] at hfdl ⊢
                exact Nat.lt_succ_of_lt hfdl
            · simp only [newOkB, Bool.and_eq_true, decide_eq_true_eq]
              refine ⟨fun hmem => absurd (hclp _ hmem) (by omega), ?_⟩
              cases hfo : s.fdL with
              | none => rfl
              | some o =>
                rw [hfo] at hfdl
                simp only [fdOkB, decide_eq_true_eq] at hfdl
                simp only [decide_eq_true_eq]
                omega
  | swapped nf of =>
    by_cases hgl : s.gLock = true
    · rw [rstep_blocked s ⟨pending, wst⟩ ops nf of hgl]
      exact h
    · have hgl2 : s.gLock = false := by simpa using hgl
      have hwh : wHolds wst = false := by
        rw [hgl2] at hg
        have := hg.symm
        simp only [rHolds, Bool.or_false] at this
        exact this
      rw [rstep_acquire s ⟨pending, wst⟩ ops nf of hgl2]
      simp only [invB, Bool.and_eq_true, beq_iff_eq]
      exact ⟨⟨⟨⟨hs, by simp [rHolds, hwh]⟩, by simp [hwh]⟩, hwr⟩, hro⟩
  | gLocked nf of =>
    have hrop := hro
    simp only [roInvB, Bool.and_eq_true, decide_eq_true_eq] at hrop
    obtain ⟨⟨hfde, hofok⟩, hnew⟩ := hrop
    have hwh : wHolds wst = false := by
      simpa [rHolds] using hmx
    rw [rstep_setout s ⟨pending, wst⟩ ops nf of]
    simp only [invB, Bool.and_eq_true, beq_iff_eq]
    refine ⟨⟨⟨⟨?_, ?_⟩, ?_⟩, ?_⟩, ?_⟩
    · simp only [sInvB, Bool.and_eq_true]
      refine ⟨⟨⟨hbad, hcl⟩, hfdl⟩, ?_⟩
      cases nf with
      | none => rfl
      | some m =>
        simp only [newOkB, Bool.and_eq_true, decide_eq_true_eq] at hnew
        rw [hfde] at hfdl
        simp only [fdOkB, decide_eq_true_eq] at hfdl
        simp only [render, outOkB, Bool.and_eq_true, decide_eq_true_eq]
        exact ⟨hnew.1, hfdl⟩
    · simpa [rHolds] using hg
    · simp [rHolds, hwh]
    · cases wst with
      | ready => rfl
      | locked => simp [wHolds] at hwh
      | got t => simp [wHolds] at hwh
    · simp only [roInvB, Bool.and_eq_true, decide_eq_true_eq]
      exact ⟨⟨⟨hfde, hofok⟩, trivial⟩, hnew⟩
  | outSet nf of =>
    have hwh : wHolds wst = false := by
      simpa [rHolds] using hmx
    rw [rstep_release s ⟨pending, wst⟩ ops nf of]
    simp only [invB, Bool.and_eq_true, beq_iff_eq]
    refine ⟨⟨⟨⟨hs, ?_⟩, ?_⟩, hwr⟩, hro⟩
    · simp [rHolds, hwh]
    · simp [rHolds]
  | closing nf of =>
    have hrop := hro
    simp only [roInvB, Bool.and_eq_true, decide_eq_true_eq] at hrop
    obtain ⟨⟨⟨hfde, hofok⟩, hrout⟩, hnew⟩ := hrop
    cases of with
    | none =>
      rw [rstep_close_none s ⟨pending, wst⟩ ops nf]
      simp only [invB, Bool.and_eq_true, beq_iff_eq]
      exact ⟨⟨⟨⟨hs, by simpa [rHolds] using hg⟩, by simpa [rHolds] using hmx⟩,
        hwr⟩, by simp [roInvB]⟩
    | some o =>
      simp only [fdOkB, decide_eq_true_eq] at hofok
      rw [rstep_close s ⟨pending, wst⟩ ops nf o]
      simp only [invB, Bool.and_eq_true, beq_iff_eq]
      refine ⟨⟨⟨⟨?_, ?_⟩, ?_⟩, ?_⟩, ?_⟩
      · simp only [sInvB, Bool.and_eq_true]
        refine ⟨⟨⟨hbad, ?_⟩, hfdl⟩, ?_⟩
        · simp only [decide_eq_true_eq]
          intro n hn
          rcases List.mem_cons.mp hn with hn | hn
          · omega
          · exact hclp n hn
        · rw [hrout]
          cases nf with
          | none => rfl
          | some m =>
            simp only [newOkB, Bool.and_eq_true, decide_eq_true_eq] at hnew
            rw [hfde] at hfdl
            simp only [fdOkB, decide_eq_true_eq] at hfdl
            simp only [render, outOkB, Bool.and_eq_true, decide_eq_true_eq]
            refine ⟨?_, hfdl⟩
            intro hmem
            rcases List.mem_cons.mp hmem with hmem | hmem
            · exact hnew.2 hmem.symm
            · exact hnew.1 hmem
      · simpa [rHolds] using hg
      · simpa [rHolds] using hmx
      · rw [hrout] at hwr ⊢
        exact hwr
      · simp [roInvB]

/-- Preservation of the invariant by one scheduled step. -/
theorem invB_step (c : Config) (who : Bool) (h : invB c = true) :
    invB (step c who) = true := by
  cases who with
  | true => simpa [step] using invB_wstep c h
  | false => simpa [step] using invB_rstep c h

/-- Preservation of the invariant by a whole run. -/
theorem invB_run (c : Config) (sched : List Bool) (h : invB c = true) :
    invB (run c sched) = true := by
  induction sched generalizing c with
  | nil => simpa [run] using h
  | cons b rest ih => simpa [run] using ih (step c b) (invB_step c b h)

/-- Reopen never changes the recorded filename. -/
theorem Reopen_filename (openOk : Bool) (l : FileLogger) (w : World) :
    (Reopen openOk l w).2.1.filename = l.filename := by
  by_cases h : l.filename = "" <;> cases openOk <;> simp [Reopen, h]

/-- Reopen never touches the watcher-done channel. -/
theorem Reopen_watcherDone (openOk : Bool) (l : FileLogger) (w : World) :
    (Reopen openOk l w).2.1.watcherDone = l.watcherDone := by
  by_cases h : l.filename = "" <;> cases openOk <;> simp [Reopen, h]

/-- Reopen never touches the watch subscription. -/
theorem Reopen_curSub (openOk : Bool) (l : FileLogger) (w : World) :
    (Reopen openOk l w).2.2.1.curSub = w.curSub := by
  by_cases h : l.filename = "" <;> cases openOk <;> simp [Reopen, h]

/-- Reopen never touches the channel counter. -/
theorem Reopen_nextChan (openOk : Bool) (l : FileLogger) (w : World) :
    (Reopen openOk l w).2.2.1.nextChan = w.nextChan := by
  by_cases h : l.filename = "" <;> cases openOk <;> simp [Reopen, h]

/-- C1: for every FileLogger with a non-empty current filename, a Reopen
whose os.OpenFile call fails returns that error and leaves the previous
state untouched: the struct (handle and filename) and the world (fd
table, subscriptions, and in particular the process-wide output stream)
are unchanged, and the trace shows that no handle was swapped, closed,
or installed as output, so the previous handle remains usable. -/
theorem C1_reopen_failure_leaves_state (l : FileLogger) (w : World)
    (h : l.filename ≠ "") :
    (Reopen false l w).1 = some (openErr l.filename) ∧
    (Reopen false l w).2.1 = l ∧
    (Reopen false l w).2.2.1 = w ∧
    (Reopen false l w).2.2.2 =
      [Ev.reopenCall,
       Ev.openFile l.filename goOpenFlags 0o644 none,
       Ev.reopenRet (some (openErr l.filename))] := by
  simp [Reopen, h]

/-- Witness for C1 at a concrete logger and world. -/
theorem C1_witness :
    ((exLogger.filename ≠ "") ∧
     (Reopen false exLogger exWorld).1 = some (openErr exLogger.filename) ∧
     (Reopen false exLogger exWorld).2.1 = exLogger ∧
     (Reopen false exLogger exWorld).2.2.1 = exWorld ∧
     (Reopen false exLogger exWorld).2.2.2 =
       [Ev.reopenCall,
        Ev.openFile exLogger.filename goOpenFlags 0o644 none,
        Ev.reopenRet (some (openErr exLogger.filename))]) :=
  ⟨by decide, C1_reopen_failure_leaves_state exLogger exWorld (by decide)⟩

/-- C3: for every non-empty current filename, a successful Reopen opens
that filename with flags os.O_RDWR plus os.O_CREATE plus os.O_APPEND and
permission 0644, installs the fresh handle, redirects the process-wide
output stream to it, and the trace shows the close of the previous
handle strictly after the swap and the output redirect. -/
theorem C3_reopen_success (l : FileLogger) (w : World)
    (h : l.filename ≠ "") :
    (Reopen true l w).1 = none ∧
    (Reopen true l w).2.1.fd = some w.nextFd ∧
    (Reopen true l w).2.2.1.out = Out.fd w.nextFd ∧
    (Reopen true l w).2.2.2 =
      [Ev.reopenCall,
       Ev.openFile l.filename (O_RDWR ||| O_CREATE ||| O_APPEND) 0o644 (some w.nextFd),
       Ev.swapFd l.fd (some w.nextFd),
       Ev.setOutput (Out.fd w.nextFd)] ++
      (match l.fd with
       | some o => [Ev.closeFd o]
       | none => []) ++
      [Ev.reopenRet none] := by
  simp [Reopen, h, goOpenFlags]

/-- Witness for C3 at a concrete logger and world. -/
theorem C3_witness :
    ((exLogger.filename ≠ "") ∧
     (Reopen true exLogger exWorld).1 = none ∧
     (Reopen true exLogger exWorld).2.1.fd = some exWorld.nextFd ∧
     (Reopen true exLogger exWorld).2.2.1.out = Out.fd exWorld.nextFd ∧
     (Reopen true exLogger exWorld).2.2.2 =
       [Ev.reopenCall,
        Ev.openFile exLogger.filename (O_RDWR ||| O_CREATE ||| O_APPEND) 0o644
          (some exWorld.nextFd),
        Ev.swapFd exLogger.fd (some exWorld.nextFd),
        Ev.setOutput (Out.fd exWorld.nextFd)] ++
       (match exLogger.fd with
        | some o => [Ev.closeFd o]
        | none => []) ++
       [Ev.reopenRet none]) :=
  ⟨by decide, C3_reopen_success exLogger exWorld (by decide)⟩

/-- C10: for every owner value and every environment, PrepareFile on the
empty filename returns nil and performs no filesystem operation at all:
its trace is empty, so no directory is created, no file is created or
opened, and no chmod or chown is attempted. -/
theorem C10_prepareFile_empty (owner : Option GoUser) (env : FSEnv) :
    PrepareFile "" owner env = (none, []) := by
  simp [PrepareFile]

/-- C2 fails as stated: Open records the new filename in a first
critical section and only swaps the handle in the later Reopen critical
section, so between the two a reader observes the new filename paired
with the handle opened at the previous filename.  The concrete input is
a logger consistently pointing at the old path that Open retargets to a
new path. -/
theorem C2_counterexample : ¬ C2Statement := by
  intro h
  have hmem :
      ((⟨"/var/log/new.log", some 0, none⟩ : FileLogger), exWorld) ∈
        openObservable "/var/log/new.log" true exLogger exWorld := by
    decide
  have := h "/var/log/new.log" true exLogger exWorld (by decide)
      (⟨"/var/log/new.log", some 0, none⟩, exWorld) hmem
  exact absurd this (by decide)

/-- C2 (amended): the filename-handle correspondence is preserved by
Reopen, whose whole body runs atomically under the guard (for both a
succeeding and a failing open), and an Open whose initial Reopen
succeeds restores it on completion; but during an Open call, after the
filename is recorded and before the initial Reopen swaps the handle, a
reader may observe the new filename paired with the previous handle (and
the same mismatch persists when the initial Reopen of the Open call
fails). -/
theorem C2_amended (l : FileLogger) (w : World)
    (h : consistentB l w = true) :
    (∀ openOk, consistentB (Reopen openOk l w).2.1 (Reopen openOk l w).2.2.1 = true) ∧
    (∀ name watcherOk subOk,
      consistentB (Open name true watcherOk subOk l w).2.1
        (Open name true watcherOk subOk l w).2.2.1 = true) := by
  constructor
  · intro openOk
    by_cases hfn : l.filename = ""
    · simp [Reopen, consistentB, hfn]
    · cases openOk with
      | false => simpa [Reopen, hfn] using h
      | true => simp [Reopen, consistentB, hfn]
  · intro name watcherOk subOk
    cases hwd : l.watcherDone <;>
      by_cases hn : name = "" <;>
        cases watcherOk <;> cases subOk <;>
          simp [Open, Reopen, fsWatch, consistentB, hwd, hn]

/-- Witness for C2 (amended) at a concrete consistent logger. -/
theorem C2_amended_witness :
    (consistentB exLogger exWorld = true ∧
     consistentB (Reopen true exLogger exWorld).2.1
       (Reopen true exLogger exWorld).2.2.1 = true ∧
     consistentB (Open "/var/log/new.log" true true true exLogger exWorld).2.1
       (Open "/var/log/new.log" true true true exLogger exWorld).2.2.1 = true) :=
  ⟨by decide,
   (C2_amended exLogger exWorld (by decide)).1 true,
   (C2_amended exLogger exWorld (by decide)).2 "/var/log/new.log" true true⟩

/-- C4 fails as stated: Open with the empty filename cancels the old
subscription but establishes no new one (fsWatch returns before
subscribing when the filename is empty), so no subscription rooted at
the empty filename exists afterwards. -/
theorem C4_counterexample : ¬ C4Statement := by
  intro h
  have := (h "" true exLoggerW exWorldS).2.2
  exact absurd this (by decide)

/-- C4 (amended): for every filename argument, Open records the
filename, returns exactly the error of the initial Reopen, cancels any
prior subscription (the close of the old watcher-done channel appears in
the trace), and, with the watch machinery succeeding, establishes a new
subscription rooted at the filename exactly when the filename is
non-empty (when it is empty no subscription is established); all of this
happens whether or not the initial Reopen failed, whose whole trace
opens the Open trace. -/
theorem C4_amended (name : String) (openOk : Bool) (l : FileLogger) (w : World)
    (hw : l.watcherDone = none → w.curSub = none) :
    (Open name openOk true true l w).1 =
      (Reopen openOk { l with filename := name } w).1 ∧
    (Open name openOk true true l w).2.1.filename = name ∧
    (∀ ch, l.watcherDone = some ch →
      Ev.closeWatchChan ch ∈ (Open name openOk true true l w).2.2.2) ∧
    (Open name openOk true true l w).2.2.1.curSub =
      (if name = "" then none else some name) ∧
    List.IsPrefix (Reopen openOk { l with filename := name } w).2.2.2
      (Open name openOk true true l w).2.2.2 := by
  refine ⟨rfl, ?_, ?_, ?_, ?_⟩
  · show ({ (Reopen openOk { l with filename := name } w).2.1 with
      watcherDone := _ } : FileLogger).filename = name
    simp [Reopen_filename]
  · intro ch hch
    have hwd : (Reopen openOk { l with filename := name } w).2.1.watcherDone = some ch := by
      rw [Reopen_watcherDone]
      exact hch
    simp only [Open, hwd]
    simp
  · cases hwd : l.watcherDone with
    | none =>
      have hwd2 : (Reopen openOk { l with filename := name } w).2.1.watcherDone = none := by
        rw [Reopen_watcherDone]
        exact hwd
      have hcs : w.curSub = none := hw hwd
      by_cases hn : name = ""
      · subst hn
        simp [Open, fsWatch, hwd2, Reopen_curSub, Reopen_filename, hcs]
      · simp [Open, fsWatch, hwd2, hn, Reopen_curSub, Reopen_filename, hcs]
    | some ch =>
      have hwd2 : (Reopen openOk { l with filename := name } w).2.1.watcherDone = some ch := by
        rw [Reopen_watcherDone]
        exact hwd
      by_cases hn : name = ""
      · subst hn
        simp [Open, fsWatch, hwd2, Reopen_filename]
      · simp [Open, fsWatch, hwd2, hn, Reopen_filename]
  · exact ((List.prefix_append _ _).trans (List.prefix_append _ _)).trans
      (List.prefix_append _ _)

/-- Witness for C4 (amended) at a concrete logger with a live prior
subscription and a failing initial Reopen. -/
theorem C4_amended_witness :
    ((Open "/var/log/new.log" false true true exLoggerW exWorldS).1 =
       (Reopen false { exLoggerW with filename := "/var/log/new.log" } exWorldS).1 ∧
     (Open "/var/log/new.log" false true true exLoggerW exWorldS).2.1.filename =
       "/var/log/new.log" ∧
     Ev.closeWatchChan 7 ∈ (Open "/var/log/new.log" false true true exLoggerW exWorldS).2.2.2 ∧
     (Open "/var/log/new.log" false true true exLoggerW exWorldS).2.2.1.curSub =
       some "/var/log/new.log") := by
  have h := C4_amended "/var/log/new.log" false exLoggerW exWorldS
    (by intro hx; exact absurd hx (by decide))
  refine ⟨h.1, h.2.1, h.2.2.1 7 (by decide), ?_⟩
  have := h.2.2.2.1
  simpa using this

/-- C5: after Open with the empty filename the handle is none, every
subsequent log write goes to standard error (the process-wide output
stream is standard error), and no filesystem subscription is registered
on any path. -/
theorem C5_open_empty (openOk watcherOk subOk : Bool) (l : FileLogger) (w : World)
    (hw : l.watcherDone = none → w.curSub = none) :
    (Open "" openOk watcherOk subOk l w).2.1.fd = none ∧
    logWriteTarget (Open "" openOk watcherOk subOk l w).2.2.1 = Out.stderr ∧
    (Open "" openOk watcherOk subOk l w).2.2.1.curSub = none := by
  cases hwd : l.watcherDone with
  | none =>
    have hcs : w.curSub = none := hw hwd
    cases watcherOk <;> cases subOk <;>
      simp [Open, Reopen, fsWatch, logWriteTarget, hwd, hcs]
  | some ch =>
    cases watcherOk <;> cases subOk <;>
      simp [Open, Reopen, fsWatch, logWriteTarget, hwd]

/-- Witness for C5 at a concrete logger with a live prior
subscription. -/
theorem C5_witness :
    ((Open "" true true true exLoggerW exWorldS).2.1.fd = none ∧
     logWriteTarget (Open "" true true true exLoggerW exWorldS).2.2.1 = Out.stderr ∧
     (Open "" true true true exLoggerW exWorldS).2.2.1.curSub = none) :=
  C5_open_empty true true true exLoggerW exWorldS
    (by intro hx; exact absurd hx (by decide))

/-- Per-event synchronisation pattern of the watcher event handler: one
Reopen entry, the Reopen return, then the re-subscription, in that
order. -/
theorem handleWatchEvent_sync (path : String) (ok : Bool)
    (l : FileLogger) (w : World) :
    ((handleWatchEvent path true ok l w).2.2.filterMap syncOf) =
      [SyncEv.call, SyncEv.ret, SyncEv.sub] := by
  by_cases h : l.filename = "" <;> cases ok <;> cases hfd : l.fd <;>
    simp [handleWatchEvent, Reopen, syncOf, h, hfd]

/-- C6: for every sequence of delivered filesystem events, the trace of
the watcher loop, restricted to its synchronisation points, is exactly
one block per event consisting of the Reopen entry, the Reopen return
(success or failure), and then the re-subscription: the handler
re-subscribes only after that event Reopen attempt completes, and events
are processed one at a time, in delivery order. -/
theorem C6_watch_events_in_order (path : String) (evs : List Bool)
    (l : FileLogger) (w : World) :
    ((watchLoop path true evs l w).2.2.filterMap syncOf) =
      (evs.map fun _ => [SyncEv.call, SyncEv.ret, SyncEv.sub]).flatten := by
  induction evs generalizing l w with
  | nil => simp [watchLoop]
  | cons ok rest ih =>
    simp only [watchLoop, List.map_cons, List.flatten_cons, List.filterMap_append]
    rw [handleWatchEvent_sync, ih]

/-- C7: the watcher event handler never emits an error-level log line,
for any path, any subscription outcome, any Reopen outcome and any
state; in particular the Reopen failure of the concrete failing event
below returns an error which the handler does not log (the source tests
the stale fsnotify.NewWatcher error, which is nil inside the loop,
instead of the discarded Reopen result). -/
theorem C7_watcher_failure_not_logged :
    (∀ (path : String) (subOk openOk : Bool) (l : FileLogger) (w : World),
      (handleWatchEvent path subOk openOk l w).2.2.filter isLogError = []) ∧
    (Reopen false exLogger exWorld).1 = some (openErr "/var/log/old.log") ∧
    (handleWatchEvent "/var/log/old.log" true false exLogger exWorld).2.2.filter
      isLogError = [] := by
  refine ⟨?_, by decide, by decide⟩
  intro path subOk openOk l w
  by_cases h : l.filename = "" <;> cases openOk <;> cases subOk <;>
    cases hfd : l.fd <;>
      simp [handleWatchEvent, Reopen, isLogError, h, hfd]

/-- C8: on one hangup signal both the log reopen and the configuration
reload are attempted, for every combination of their outcomes; the
resulting logger and world state is exactly that of the Reopen alone
(the reload neither blocks nor rolls it back, and its own outcome does
not depend on the reopen outcome); each failure is reported by its own
error-level line. -/
theorem C8_hup_independent (openOk reloadOk : Bool) (l : FileLogger) (w : World) :
    Ev.reopenCall ∈ (deliverHup openOk reloadOk l w).2.2 ∧
    Ev.reloadConfig reloadOk ∈ (deliverHup openOk reloadOk l w).2.2 ∧
    (deliverHup openOk reloadOk l w).1 = (Reopen openOk l w).2.1 ∧
    (deliverHup openOk reloadOk l w).2.1 = (Reopen openOk l w).2.2.1 ∧
    (reloadOk = false →
      Ev.logError "Config reload failed" ∈ (deliverHup openOk reloadOk l w).2.2) ∧
    (openOk = false → l.filename ≠ "" →
      Ev.logError ("Reopen log " ++ l.filename ++ " failed: " ++ (openErr l.filename).msg) ∈
        (deliverHup openOk reloadOk l w).2.2) := by
  by_cases h : l.filename = "" <;> cases openOk <;> cases reloadOk <;>
    cases hfd : l.fd <;>
      simp [deliverHup, hupReopenHandler, hupReloadHandler, Reopen, h, hfd,
        Reopen_filename]

/-- Witness for C8 at a concrete logger with both the reopen and the
reload failing. -/
theorem C8_witness :
    (Ev.reopenCall ∈ (deliverHup false false exLogger exWorld).2.2 ∧
     Ev.reloadConfig false ∈ (deliverHup false false exLogger exWorld).2.2 ∧
     Ev.logError "Config reload failed" ∈ (deliverHup false false exLogger exWorld).2.2 ∧
     Ev.logError ("Reopen log " ++ exLogger.filename ++ " failed: " ++
       (openErr exLogger.filename).msg) ∈ (deliverHup false false exLogger exWorld).2.2) := by
  have h := C8_hup_independent false false exLogger exWorld
  exact ⟨h.1, h.2.1, h.2.2.2.2.1 rfl, h.2.2.2.2.2 rfl (by decide)⟩

/-- C9: in the interleaving model of Reopen calls racing log writes,
every configuration satisfying the invariant (in particular any
configuration with an open current handle, no violation, and both
threads at rest) never reaches a state in which a write targeted a
closed handle, under every schedule: each write goes to the output
stream it read under the process-wide output mutex, which is never a
closed handle. -/
theorem C9_no_write_after_close (c : Config) (h : invB c = true)
    (sched : List Bool) :
    (run c sched).s.bad = false := by
  have hrun := invB_run c sched h
  simp only [invB, sInvB, Bool.and_eq_true] at hrun
  have hb := hrun.1.1.1.1.1.1.1
  simpa using hb

/-- Witness for C9 at a concrete configuration and schedule that
interleaves the two writes with the two Reopen calls. -/
theorem C9_witness :
    (invB exConfig = true ∧
     (run exConfig [true, false, true, false, true, false, false, false, true,
       false, false, false, false, true, false, true]).s.bad = false) :=
  ⟨by decide,
   C9_no_write_after_close exConfig (by decide)
     [true, false, true, false, true, false, false, false, true,
      false, false, false, false, true, false, true]⟩

end GoCarbon

